import Mathlib

/-!
# Verification of the Rhythms Standup Bot conversation core

Shallow embedding of `src/conversation/graph.py` (the six node functions over
`StandupState` and the graph registry built by `create_standup_graph`) and of
the session/dispatch logic of `src/bot/slack_app.py` (`StandupBot`), together
with theorems settling the specification claims about them.

Modelling conventions:
* Python dictionaries (`Dict[str, Any]`) are association lists over `String`
  keys with `PyVal` values; lookup returns the first binding, as keys are
  unique in the source.
* A JSON value produced by `json.loads` on a generation response is a `PyVal`;
  an unparsable response is `none` (the bare `except:` path in the source).
  Each node that performs a generation call receives the parsed outcome of
  that call as an explicit argument, since the generation resource is an
  external collaborator.
* `os.getenv("OPENAI_API_KEY")` is an `Option String` argument; Python
  truthiness of the credential string is modelled exactly (`None` and `""`
  are both falsy).
* Exceptions are modelled with `Except String`.
-/

/-- A Python/JSON value, as produced by `json.loads` and stored in the
loosely-typed state dictionary. -/
inductive PyVal where
  | pstr (s : String)
  | pbool (b : Bool)
  | plist (xs : List PyVal)
  | pdict (fields : List (String × PyVal))

/-- A LangChain message: `HumanMessage`, `AIMessage` or `FunctionMessage`. -/
inductive Message where
  | human (c : String)
  | ai (c : String)
  | function (c : String)
deriving DecidableEq, Repr

/-- The `.content` attribute of a message. -/
def Message.content : Message → String
  | .human c => c
  | .ai c => c
  | .function c => c

/-- `StandupState` (graph.py lines 17-22): the conversation state threaded
through the graph.  `messages` is the ordered history; `user_info`,
`activities` are string-keyed dictionaries; `current_draft` is the JSON value
last assigned to the draft (a dictionary in every write the source performs,
but `json.loads` output is unconstrained, so it is kept as a `PyVal`). -/
structure StandupState where
  messages : List Message
  user_info : List (String × PyVal)
  current_draft : PyVal
  activities : List (String × PyVal)
  next_step : String

/-- Python `d[k]` / `d.get(k)` on a string-keyed dictionary. -/
def dget : List (String × PyVal) → String → Option PyVal
  | [], _ => none
  | (k, v) :: rest, key => if k = key then some v else dget rest key

/-- Python `d.get(k, default)`. -/
def dgetD (d : List (String × PyVal)) (key : String) (dflt : PyVal) : PyVal :=
  (dget d key).getD dflt

/-- Python subscription `v[k]` where `v` is an arbitrary value: succeeds only
when `v` is a dictionary holding the key; any other case raises
(`TypeError`/`KeyError`), which the callers catch with a bare `except:`. -/
def pyGet : PyVal → String → Option PyVal
  | .pdict fs, k => dget fs k
  | _, _ => none

/-- Python truthiness of a value (`if analysis[...]:`). -/
def truthy : PyVal → Bool
  | .pstr s => !(s == "")
  | .pbool b => b
  | .plist xs => !xs.isEmpty
  | .pdict fs => !fs.isEmpty

/-- The elements handed to `"\n".join(...)`: a list of values joins only if
every element is a string; a bare string is an iterable of its one-character
substrings; anything else raises `TypeError` (caught by the bare `except:`). -/
def joinable : PyVal → Option (List String)
  | .plist xs => strList xs
  | .pstr s => some (s.data.map (fun c => String.mk [c]))
  | _ => none
where
  strList : List PyVal → Option (List String)
    | [] => some []
    | .pstr s :: rest => (strList rest).map (fun t => s :: t)
    | _ :: _ => none

/-- The OpenAI chat client constructed by `get_llm` (graph.py line 14). -/
structure ChatOpenAI where
  model : String
  temperature : Nat
  api_key : String
deriving DecidableEq, Repr

/-- `get_llm` (graph.py lines 10-14): reads `OPENAI_API_KEY` and raises a
`ValueError` when it is absent or empty (`if not api_key:`), otherwise
constructs a fresh client. -/
def get_llm (env : Option String) : Except String ChatOpenAI :=
  match env with
  | none => Except.error "OPENAI_API_KEY environment variable is not set"
  | some k =>
    if k = "" then Except.error "OPENAI_API_KEY environment variable is not set"
    else Except.ok { model := "gpt-4", temperature := 0, api_key := k }

/-- The terminal sentinel: the source writes the literal `"end"` in
`finalize` (graph.py line 155) and tests `result.next_step == "end"`
(slack_app.py line 222). -/
def END : String := "end"

/-- `initialize_state` (graph.py lines 25-28). -/
def initialize_state (s : StandupState) : StandupState :=
  { s with next_step := "fetch_activities" }

/-- `fetch_activities` (graph.py lines 30-40): rebuilds `activities` as a
three-key dictionary taking each key from the input with default `[]`. -/
def fetch_activities (s : StandupState) : StandupState :=
  { s with
    activities :=
      [("accomplishments", dgetD s.activities "accomplishments" (PyVal.plist [])),
       ("plans", dgetD s.activities "plans" (PyVal.plist [])),
       ("blockers", dgetD s.activities "blockers" (PyVal.plist []))],
    next_step := "generate_draft" }

/-- The fallback draft built in the `except:` branch of `generate_draft`
(graph.py lines 65-69): an empty skeleton from `activities`. -/
def fallbackDraft (acts : List (String × PyVal)) : PyVal :=
  PyVal.pdict
    [("accomplishments", dgetD acts "accomplishments" (PyVal.plist [])),
     ("plans", dgetD acts "plans" (PyVal.plist [])),
     ("blockers", dgetD acts "blockers" (PyVal.plist []))]

/-- `generate_draft` (graph.py lines 42-73): constructs a client via
`get_llm` (raising if the credential is missing), invokes the chain, then
parses the response: on parse failure the draft falls back to the skeleton
built from `activities`.  `resp` is the parsed generation response. -/
def generate_draft (env : Option String) (resp : Option PyVal)
    (s : StandupState) : Except String StandupState :=
  match get_llm env with
  | Except.error e => Except.error e
  | Except.ok _llm =>
    let draft := match resp with
      | some d => d
      | none => fallbackDraft s.activities
    Except.ok { s with current_draft := draft, next_step := "analyze_draft" }

/-- `analyze_draft` (graph.py lines 75-105): parses the analysis response;
when it parses to a dictionary whose `needs_clarification` entry is truthy
and whose `questions` entry joins into a string, sets `next_step` to
`ask_followup` and appends the joined questions as an `AIMessage`; every
failing or falsy path lands in `next_step = "finalize"` (the bare `except:`
also resets `next_step` to `"finalize"` after a partial write, so the net
effect is identical). -/
def analyze_draft (env : Option String) (resp : Option PyVal)
    (s : StandupState) : Except String StandupState :=
  match get_llm env with
  | Except.error e => Except.error e
  | Except.ok _llm =>
    match resp with
    | none => Except.ok { s with next_step := "finalize" }
    | some analysis =>
      match pyGet analysis "needs_clarification" with
      | none => Except.ok { s with next_step := "finalize" }
      | some nc =>
        if truthy nc then
          match pyGet analysis "questions" with
          | none => Except.ok { s with next_step := "finalize" }
          | some qv =>
            match joinable qv with
            | none => Except.ok { s with next_step := "finalize" }
            | some qs =>
              Except.ok { s with
                next_step := "ask_followup",
                messages := s.messages ++ [Message.ai (String.intercalate "\n" qs)] }
        else Except.ok { s with next_step := "finalize" }

/-- `ask_followup` (graph.py lines 107-133): on a parsable response the draft
is replaced, on parse failure the `except: pass` keeps `current_draft`
unchanged; either way `next_step` becomes `analyze_draft`. -/
def ask_followup (env : Option String) (resp : Option PyVal)
    (s : StandupState) : Except String StandupState :=
  match get_llm env with
  | Except.error e => Except.error e
  | Except.ok _llm =>
    let s1 := match resp with
      | some d => { s with current_draft := d }
      | none => s
    Except.ok { s1 with next_step := "analyze_draft" }

/-- `finalize` (graph.py lines 135-156): appends the raw response content as
an `AIMessage` and sets `next_step` to the terminal sentinel. -/
def finalize (env : Option String) (respText : String)
    (s : StandupState) : Except String StandupState :=
  match get_llm env with
  | Except.error e => Except.error e
  | Except.ok _llm =>
    Except.ok { s with
      messages := s.messages ++ [Message.ai respText],
      next_step := END }

/-- The node names registered by `create_standup_graph` (graph.py
lines 164-169). -/
def standupNodes : List String :=
  ["initialize", "fetch_activities", "generate_draft",
   "analyze_draft", "ask_followup", "finalize"]

/-- The unconditional edges registered by `create_standup_graph` (graph.py
lines 172-177). -/
def standupEdges : List (String × String) :=
  [("initialize", "fetch_activities"),
   ("fetch_activities", "generate_draft"),
   ("generate_draft", "analyze_draft"),
   ("analyze_draft", "ask_followup"),
   ("analyze_draft", "finalize"),
   ("ask_followup", "analyze_draft")]

/-- The conditional edge table registered for `analyze_draft` (graph.py
lines 180-187); the routing value is `lambda x: x["next_step"]`. -/
def analyzeCondEdges : List (String × String) :=
  [("ask_followup", "ask_followup"), ("finalize", "finalize")]

/-- The entry point (graph.py line 189). -/
def standupEntryPoint : String := "initialize"

/-- The external inputs one node invocation depends on: the credential read
by `get_llm` at that step and the (parsed) generation response of that
step's call.  `respText` is the raw content used by `finalize`. -/
structure NodeOracle where
  env : Option String
  resp : Option PyVal
  respText : String

/-- Dispatch a node by its registered name (the functions registered in
`create_standup_graph`, graph.py lines 164-169); an unregistered name is a
fatal internal error, per the executor contract. -/
def runNode (name : String) (o : NodeOracle) (s : StandupState) :
    Except String StandupState :=
  if name = "initialize" then Except.ok (initialize_state s)
  else if name = "fetch_activities" then Except.ok (fetch_activities s)
  else if name = "generate_draft" then generate_draft o.env o.resp s
  else if name = "analyze_draft" then analyze_draft o.env o.resp s
  else if name = "ask_followup" then ask_followup o.env o.resp s
  else if name = "finalize" then finalize o.env o.respText s
  else Except.error ("unknown node: " ++ name)

/-- Modelled from the spec: the executor's edge resolution (the executor
itself is the external langgraph library, absent from src).  Every outgoing
edge of node `n` that matches state `s`: a registered unconditional edge
from `n` matches unconditionally; an entry of the conditional table attached
to `n` matches when its key equals the routing value read from the state
(the source's `lambda x: x["next_step"]`).  The spec requires exactly one
match, anything else being a fatal configuration error. -/
def outgoingMatches (n : String) (s : StandupState) : List String :=
  ((standupEdges.filter (fun e => e.1 == n)).map (fun e => e.2)) ++
  (if n == "analyze_draft" then
     (analyzeCondEdges.filter (fun e => e.1 == s.next_step)).map (fun e => e.2)
   else [])

/-- Outcome of a bounded executor run. -/
inductive ExecResult where
  | finished (s : StandupState)
  | budgetExceeded (s : StandupState)
  | failed (msg : String)

/-- Whether a run ended by exhausting the step budget. -/
def ExecResult.isBudgetExceeded : ExecResult → Bool
  | .budgetExceeded _ => true
  | _ => false

/-- Modelled from the spec: the Graph Executor with its step budget (§4.1;
the executor implementation is the external langgraph library, absent from
src).  It repeatedly runs the node named by `state.next_step` — which, for
this registry, is exactly the successor the registered edge / conditional
table selects — until the terminal sentinel, a node failure, or budget
exhaustion (`GraphBudgetExceeded`).  `oracle i` supplies the external inputs
of step `i`; the returned number counts node invocations performed. -/
def execGraph (oracle : Nat → NodeOracle) (i : Nat) (budget : Nat)
    (s : StandupState) : ExecResult × Nat :=
  match budget with
  | 0 => (ExecResult.budgetExceeded s, 0)
  | Nat.succ b =>
    if s.next_step = END then (ExecResult.finished s, 0)
    else
      match runNode s.next_step (oracle i) s with
      | Except.error e => (ExecResult.failed e, 1)
      | Except.ok s1 =>
        let r := execGraph oracle (i + 1) b s1
        (r.1, r.2 + 1)

/-- A node name sets a valid `next_step` when it is a registered node name
or the terminal sentinel. -/
def validNext (v : String) : Bool :=
  standupNodes.contains v || v == END

/-- One entry of `StandupBot.active_conversations` (slack_app.py
lines 166-169): the conversation state plus the reply channel. -/
structure SessionData where
  state : StandupState
  channel : String

/-- `StandupBot.active_conversations`: a dictionary keyed by user id. -/
def Sessions : Type := List (String × SessionData)

/-- Dictionary lookup `active_conversations[user_id]` /
`user_id in active_conversations`. -/
def sget : Sessions → String → Option SessionData
  | [], _ => none
  | (k, v) :: rest, key => if k = key then some v else sget rest key

/-- Dictionary assignment `active_conversations[user_id] = ...`
(overwrites in place, appends when absent). -/
def sset : Sessions → String → SessionData → Sessions
  | [], key, v => [(key, v)]
  | (k, v0) :: rest, key, v =>
    if k = key then (key, v) :: rest else (k, v0) :: sset rest key v

/-- Dictionary deletion `del active_conversations[user_id]`. -/
def sdel : Sessions → String → Sessions
  | [], _ => []
  | (k, v0) :: rest, key =>
    if k = key then rest else (k, v0) :: sdel rest key

/-- The apology text of `_send_error_message` (slack_app.py line 255). -/
def errorText : String := "Sorry, I encountered an error. Please try again."

/-- Python `text.lower()`. -/
def lowerString (s : String) : String := String.mk (s.data.map Char.toLower)

/-- Python `needle in hay` on strings (contiguous substring). -/
def strContains (hay needle : String) : Bool :=
  infixChars needle.data hay.data
where
  infixChars : List Char → List Char → Bool
    | n, [] => n.isEmpty
    | n, c :: t => n.isPrefixOf (c :: t) || infixChars n t

/-- The dispatch test `"standup" in text.lower()` (slack_app.py line 127). -/
def hasStandupTrigger (text : String) : Bool :=
  strContains (lowerString text) "standup"

/-- The initial state built by `_initiate_standup` (slack_app.py
lines 151-163). -/
def initialState (userId realName ghTitle : String) : StandupState :=
  { messages := [Message.human "Let\x27s start my standup update."],
    user_info :=
      [("id", PyVal.pstr userId),
       ("name", PyVal.pstr realName),
       ("github_username", PyVal.pstr ghTitle)],
    current_draft := PyVal.pdict [],
    activities := [],
    next_step := "initialize" }

/-- The session-map effect of `_initiate_standup` (slack_app.py
lines 166-169): stores a fresh session under the user id, overwriting any
existing one, before running the graph. -/
def initiate_standup (sessions : Sessions) (userId channel realName ghTitle : String) :
    Sessions :=
  sset sessions userId { state := initialState userId realName ghTitle,
                         channel := channel }

/-- `_run_graph`'s post-run delivery (slack_app.py lines 208-223) together
with `_finalize_conversation` (lines 229-248), given the state the graph run
returned: store the result, post the last message if it is an `AIMessage`,
and when the run reached the sentinel post `messages[-1].content` again and
delete the session.  Returns the updated session map and the posted
`(channel, text)` messages in order.  An empty `messages` at finalization
raises `IndexError`, caught by `_run_graph`'s handler which posts the
apology instead (and never reaches the deletion).  The callers guarantee the
user id is present; the `none` branch is unreachable in the source. -/
def run_graph_deliver (sessions : Sessions) (userId : String)
    (result : StandupState) : Sessions × List (String × String) :=
  match sget sessions userId with
  | none => (sessions, [])
  | some sd =>
    let sessions1 := sset sessions userId { sd with state := result }
    let posts1 := match result.messages.getLast? with
      | some (Message.ai c) => [(sd.channel, c)]
      | _ => []
    if result.next_step = END then
      match result.messages.getLast? with
      | some m => (sdel sessions1 userId, posts1 ++ [(sd.channel, m.content)])
      | none => (sessions1, posts1 ++ [(sd.channel, errorText)])
    else (sessions1, posts1)

/-- `_run_graph` (slack_app.py lines 197-227) given the outcome of the
graph run: a raised error is caught and answered with the single apology
message, leaving the session map untouched; a returned state is delivered
via `run_graph_deliver`. -/
def run_graph_att (sessions : Sessions) (userId : String)
    (outcome : Except String StandupState) : Sessions × List (String × String) :=
  match sget sessions userId with
  | none => (sessions, [])
  | some sd =>
    match outcome with
    | Except.error _ => (sessions, [(sd.channel, errorText)])
    | Except.ok result => run_graph_deliver sessions userId result

/-- `_handle_message` (slack_app.py lines 113-130) for a non-bot message,
with the graph run's outcome supplied as an argument: any text containing
the trigger starts a fresh standup (overwriting an active session); other
text from a user with an active session appends a `HumanMessage` and resumes;
anything else is ignored. -/
def handle_message (sessions : Sessions)
    (userId channel text realName ghTitle : String)
    (outcome : Except String StandupState) : Sessions × List (String × String) :=
  if hasStandupTrigger text then
    run_graph_att (initiate_standup sessions userId channel realName ghTitle)
      userId outcome
  else
    match sget sessions userId with
    | some sd =>
      run_graph_att
        (sset sessions userId
          { sd with state :=
              { sd.state with messages := sd.state.messages ++ [Message.human text] } })
        userId outcome
    | none => (sessions, [])

/-- The process environment read at startup and during runs. -/
structure ProcEnv where
  slack_app_token : Option String
  slack_bot_token : Option String
  openai_api_key : Option String

/-- Python falsiness of an optional credential string. -/
def falsyOpt : Option String → Bool
  | none => true
  | some s => s == ""

/-- The credential validation in `StandupBot.__init__` (slack_app.py
lines 16-21): only the two Slack tokens are read and checked (`if not
self.app_token or not self.bot_token:`); the generation credential is never
consulted at startup (the network `auth_test` call is external I/O and out
of scope). -/
def botCredentialCheck (e : ProcEnv) : Except String Unit :=
  if falsyOpt e.slack_app_token || falsyOpt e.slack_bot_token then
    Except.error "SLACK_APP_TOKEN and SLACK_BOT_TOKEN must be set in .env file"
  else Except.ok ()

/-! ## Helper lemmas about the nodes and the session map -/

/-- Lift a postcondition over the successful result of a node call; a raised
error has no "after" state, so it satisfies every postcondition vacuously. -/
def onOk (P : StandupState → Prop) : Except String StandupState → Prop
  | Except.ok s1 => P s1
  | Except.error _ => True

theorem generate_draft_post (env : Option String) (resp : Option PyVal)
    (s : StandupState) :
    onOk (fun s1 => s1.next_step = "analyze_draft" ∧ s1.messages = s.messages)
      (generate_draft env resp s) := by
  unfold generate_draft
  split <;> simp [onOk]

theorem analyze_draft_post (env : Option String) (resp : Option PyVal)
    (s : StandupState) :
    onOk (fun s1 => (s1.next_step = "ask_followup" ∨ s1.next_step = "finalize") ∧
      s.messages <+: s1.messages)
      (analyze_draft env resp s) := by
  unfold analyze_draft
  split
  · simp [onOk]
  · split
    · simp [onOk]
    · split
      · simp [onOk]
      · split
        · split
          · simp [onOk]
          · split <;> simp [onOk]
        · simp [onOk]

theorem ask_followup_post (env : Option String) (resp : Option PyVal)
    (s : StandupState) :
    onOk (fun s1 => s1.next_step = "analyze_draft" ∧ s1.messages = s.messages)
      (ask_followup env resp s) := by
  unfold ask_followup
  split
  · simp [onOk]
  · split <;> simp [onOk]

theorem finalize_post (env : Option String) (t : String) (s : StandupState) :
    onOk (fun s1 => s1.next_step = END ∧ s1.messages = s.messages ++ [Message.ai t])
      (finalize env t s) := by
  unfold finalize
  split <;> simp [onOk]

theorem sget_sset_same (m : Sessions) (k : String) (v : SessionData) :
    sget (sset m k v) k = some v := by
  induction m with
  | nil => simp [sset, sget]
  | cons hd tl ih =>
    obtain ⟨k0, v0⟩ := hd
    by_cases h : k0 = k
    · simp [sset, sget, h]
    · simp [sset, sget, h, ih]

/-- The budget invariant of one executor run: the number of node invocations
never exceeds the budget; a `budgetExceeded` outcome used up the whole
budget, and a `finished` outcome stopped at the terminal sentinel. -/
def budgetInv (budget : Nat) (r : ExecResult × Nat) : Prop :=
  r.2 ≤ budget ∧
  (match r.1 with
   | ExecResult.budgetExceeded _ => r.2 = budget
   | ExecResult.finished s1 => s1.next_step = END
   | ExecResult.failed _ => True)

/-! ## Concrete states and runs used by the counterexamples and witnesses -/

/-- A session paused at `analyze_draft` with one human message. -/
def exC1Sd : SessionData :=
  { state := { messages := [Message.human "hi"], user_info := [],
               current_draft := PyVal.pdict [], activities := [],
               next_step := "analyze_draft" },
    channel := "chanC1" }

def exC1Sessions : Sessions := [("U1", exC1Sd)]

/-- A graph result that reached the terminal sentinel with a final
`AIMessage`. -/
def exC1Result : StandupState :=
  { messages := [Message.human "hi", Message.ai "final update"],
    user_info := [], current_draft := PyVal.pdict [], activities := [],
    next_step := "end" }

/-- A session paused at `ask_followup` holding an in-progress draft. -/
def exC2OldSd : SessionData :=
  { state := { messages := [Message.human "Let\x27s start my standup update.",
                            Message.ai "Here is your draft so far"],
               user_info := [("id", PyVal.pstr "U1")],
               current_draft := PyVal.pdict
                 [("accomplishments", PyVal.plist [PyVal.pstr "shipped X"])],
               activities := [], next_step := "ask_followup" },
    channel := "chanC2" }

def exC2Sessions : Sessions := [("U1", exC2OldSd)]

/-- The state a fresh run started by the second trigger could pause at. -/
def exC2NewResult : StandupState :=
  { messages := [Message.human "Let\x27s start my standup update.",
                 Message.ai "What are you working on?"],
    user_info := [("id", PyVal.pstr "U1")],
    current_draft := PyVal.pdict [],
    activities := [], next_step := "ask_followup" }

/-- A session whose graph run is about to raise. -/
def exC3Sd : SessionData :=
  { state := { messages := [Message.human "hi"], user_info := [],
               current_draft := PyVal.pdict [], activities := [],
               next_step := "analyze_draft" },
    channel := "chanC3" }

def exC3Sessions : Sessions := [("U3", exC3Sd)]

/-- The state `analyze_draft` returns when the analysis reports the draft
complete: `next_step` is `"finalize"`. -/
def exC4State : StandupState :=
  { messages := [], user_info := [], current_draft := PyVal.pdict [],
    activities := [], next_step := "finalize" }

def exC5State : StandupState :=
  { messages := [Message.human "hi"], user_info := [],
    current_draft := PyVal.pdict [("plans", PyVal.plist [PyVal.pstr "p1"])],
    activities := [("accomplishments", PyVal.plist [PyVal.pstr "a1"])],
    next_step := "generate_draft" }

def exC6State : StandupState :=
  { messages := [], user_info := [], current_draft := PyVal.pdict [],
    activities := [], next_step := "generate_draft" }

/-- An oracle under which the analysis always asks for clarification, so the
run cycles `analyze_draft` to `ask_followup` and back forever. -/
def loopOracle : Nat → NodeOracle := fun _ =>
  { env := some "k",
    resp := some (PyVal.pdict [("needs_clarification", PyVal.pbool true),
                               ("questions", PyVal.plist [PyVal.pstr "q"])]),
    respText := "done" }

def loopStart : StandupState :=
  { messages := [], user_info := [], current_draft := PyVal.pdict [],
    activities := [], next_step := "analyze_draft" }

/-! ## Claim theorems -/

/-- C1, counterexample: on a run that reaches the terminal sentinel with a
final `AIMessage`, the code posts that final message TWICE — once in
`_run_graph` (slack_app.py lines 212-219) and once more in
`_finalize_conversation` (lines 236-245) — not exactly once as claimed.  The
session is deleted. -/
theorem C1_counterexample :
    (run_graph_deliver exC1Sessions "U1" exC1Result).2 =
      [("chanC1", "final update"), ("chanC1", "final update")] ∧
    (run_graph_deliver exC1Sessions "U1" exC1Result).2.length ≠ 1 ∧
    sget (run_graph_deliver exC1Sessions "U1" exC1Result).1 "U1" = none :=
  ⟨rfl, by decide, rfl⟩

/-- C1, amended: when the Executor reaches the terminal sentinel with the
last message an Assistant message, exactly TWO outbound messages carrying
that final content are posted to the session's reply destination (the run
delivery and the finalization post), and the Session is deleted. -/
theorem C1_amended_double_post (sessions : Sessions) (userId : String)
    (sd : SessionData) (result : StandupState) (c : String)
    (h1 : sget sessions userId = some sd)
    (h2 : result.next_step = END)
    (h3 : result.messages.getLast? = some (Message.ai c)) :
    run_graph_deliver sessions userId result =
      (sdel (sset sessions userId { sd with state := result }) userId,
       [(sd.channel, c), (sd.channel, c)]) := by
  simp [run_graph_deliver, h1, h3, h2, Message.content]

/-- Witness for C1_amended_double_post at a concrete terminal run. -/
theorem C1_amended_double_post_witness :
    run_graph_deliver exC1Sessions "U1" exC1Result =
      (sdel (sset exC1Sessions "U1" { exC1Sd with state := exC1Result }) "U1",
       [(exC1Sd.channel, "final update"), (exC1Sd.channel, "final update")]) :=
  C1_amended_double_post exC1Sessions "U1" exC1Sd exC1Result "final update"
    rfl rfl rfl

/-- C2, counterexample: with a session for `"U1"` active at `ask_followup`
and holding a non-empty draft, the inbound text `"standup"` is routed to
`_initiate_standup`, which silently replaces the stored session with a fresh
run; the outbound traffic is exactly the new run's own message — no
rejection and no supersession notice — and the in-progress draft is gone. -/
theorem C2_counterexample :
    handle_message exC2Sessions "U1" "chanC2" "standup" "Connor" ""
        (Except.ok exC2NewResult) =
      ([("U1", { state := exC2NewResult, channel := "chanC2" })],
       [("chanC2", "What are you working on?")]) ∧
    exC2OldSd.state.current_draft ≠ exC2NewResult.current_draft :=
  ⟨rfl, by simp [exC2OldSd, exC2NewResult]⟩

/-- C2, amended: an inbound text containing the start trigger ALWAYS starts
a fresh standup, silently overwriting any active session for that user: the
session map afterwards holds the fresh initial state (whose draft is the
empty dictionary), the prior state is unreachable, and no rejection or
supersession message is produced by the dispatch itself. -/
theorem C2_amended_silent_overwrite (sessions : Sessions)
    (userId channel text realName ghTitle : String)
    (outcome : Except String StandupState)
    (h : hasStandupTrigger text = true) :
    handle_message sessions userId channel text realName ghTitle outcome =
      run_graph_att
        (sset sessions userId
          { state := initialState userId realName ghTitle, channel := channel })
        userId outcome ∧
    sget (sset sessions userId
        { state := initialState userId realName ghTitle, channel := channel })
      userId =
      some { state := initialState userId realName ghTitle, channel := channel } ∧
    (initialState userId realName ghTitle).current_draft = PyVal.pdict [] := by
  refine ⟨?_, sget_sset_same _ _ _, rfl⟩
  simp [handle_message, h, initiate_standup]

/-- Witness for C2_amended_silent_overwrite at a concrete trigger message
arriving while a session is active. -/
theorem C2_amended_silent_overwrite_witness :
    handle_message exC2Sessions "U1" "chanC2" "please run standup" "Connor" ""
        (Except.ok exC2NewResult) =
      run_graph_att
        (sset exC2Sessions "U1"
          { state := initialState "U1" "Connor" "", channel := "chanC2" })
        "U1" (Except.ok exC2NewResult) ∧
    sget (sset exC2Sessions "U1"
        { state := initialState "U1" "Connor" "", channel := "chanC2" }) "U1" =
      some { state := initialState "U1" "Connor" "", channel := "chanC2" } ∧
    (initialState "U1" "Connor" "").current_draft = PyVal.pdict [] :=
  C2_amended_silent_overwrite exC2Sessions "U1" "chanC2" "please run standup"
    "Connor" "" (Except.ok exC2NewResult) (by decide)

/-- C3, counterexample: when the graph run raises, the user receives the one
apology message, but the session is NOT cleared — the map still holds the
same session, whose state was never forced to the terminal sentinel. -/
theorem C3_counterexample :
    run_graph_att exC3Sessions "U3" (Except.error "node raised") =
      (exC3Sessions, [("chanC3", errorText)]) ∧
    sget (run_graph_att exC3Sessions "U3" (Except.error "node raised")).1 "U3" =
      some exC3Sd ∧
    exC3Sd.state.next_step ≠ END :=
  ⟨rfl, rfl, by decide⟩

/-- C3, amended: on an unrecovered error during a run the user receives
exactly one apology message, but the session map is left untouched: the
session is not cleared and its state is not forced to the terminal sentinel
(a later restart works only because a trigger message overwrites the
session). -/
theorem C3_amended_session_retained (sessions : Sessions) (userId : String)
    (sd : SessionData) (e : String) (h : sget sessions userId = some sd) :
    run_graph_att sessions userId (Except.error e) =
      (sessions, [(sd.channel, errorText)]) := by
  unfold run_graph_att
  rw [h]

/-- Witness for C3_amended_session_retained at a concrete failing run. -/
theorem C3_amended_session_retained_witness :
    run_graph_att exC3Sessions "U3" (Except.error "boom") =
      (exC3Sessions, [(exC3Sd.channel, errorText)]) :=
  C3_amended_session_retained exC3Sessions "U3" exC3Sd "boom" rfl

/-- C4: the registry built by `create_standup_graph` wires the unconditional
edges `analyze_draft → ask_followup` and `analyze_draft → finalize`
(graph.py lines 175-176) IN ADDITION to the conditional table
(lines 180-187).  On the state `analyze_draft` returns when the analysis is
complete, THREE outgoing edges match — the two unconditional ones and the
matching conditional entry — although the conditional table alone would
select exactly one successor.  By the spec's own rule this is a fatal
configuration error, contradicting the intent the conditional-edge
declaration itself expresses. -/
theorem C4_ambiguous_edges :
    outgoingMatches "analyze_draft" exC4State =
      ["ask_followup", "finalize", "finalize"] ∧
    (outgoingMatches "analyze_draft" exC4State).length ≠ 1 ∧
    ((analyzeCondEdges.filter (fun e => e.1 == exC4State.next_step)).map
      (fun e => e.2)) = ["finalize"] :=
  ⟨rfl, by decide, rfl⟩

/-- C5: a node that expects structured generation output and receives
unparsable content falls back to the best available prior structured value —
`generate_draft` to the empty skeleton built from `activities`, and
`ask_followup` to the unmodified `current_draft` — and the run continues
(`next_step` is set to `analyze_draft`); the parse failure is never
propagated as an error. -/
theorem C5_parse_fallback (env : Option String) (llm : ChatOpenAI)
    (s : StandupState) (h : get_llm env = Except.ok llm) :
    generate_draft env none s =
      Except.ok { s with current_draft := fallbackDraft s.activities,
                         next_step := "analyze_draft" } ∧
    ask_followup env none s =
      Except.ok { s with next_step := "analyze_draft" } := by
  constructor <;> simp [generate_draft, ask_followup, h]

/-- Witness for C5_parse_fallback with a present credential and a concrete
state. -/
theorem C5_parse_fallback_witness :
    generate_draft (some "sk-test") none exC5State =
      Except.ok { exC5State with
        current_draft := fallbackDraft exC5State.activities,
        next_step := "analyze_draft" } ∧
    ask_followup (some "sk-test") none exC5State =
      Except.ok { exC5State with next_step := "analyze_draft" } :=
  C5_parse_fallback (some "sk-test")
    { model := "gpt-4", temperature := 0, api_key := "sk-test" } exC5State rfl

/-- C6, counterexample: startup succeeds with both Slack tokens present and
the generation credential missing — `StandupBot.__init__` never consults
`OPENAI_API_KEY` — yet the very same missing credential makes the nodes'
generation calls fail DURING the run, because each node constructs a fresh
client via `get_llm` per call. -/
theorem C6_counterexample :
    botCredentialCheck { slack_app_token := some "xapp-1",
                         slack_bot_token := some "xoxb-1",
                         openai_api_key := none } = Except.ok () ∧
    generate_draft none (some (PyVal.pdict [])) exC6State =
      Except.error "OPENAI_API_KEY environment variable is not set" ∧
    analyze_draft none (some (PyVal.pdict [])) exC6State =
      Except.error "OPENAI_API_KEY environment variable is not set" :=
  ⟨rfl, rfl, rfl⟩

/-- C6, amended: each of the four generation-calling nodes constructs the
client anew on every invocation via `get_llm`, so a missing credential
surfaces as a per-call error during the run — for every state and every
response — while process startup validates only the two Slack tokens and its
outcome is independent of the generation credential. -/
theorem C6_amended_per_call_client (resp : Option PyVal) (t : String)
    (s : StandupState) (app bot : Option String) :
    generate_draft none resp s =
      Except.error "OPENAI_API_KEY environment variable is not set" ∧
    analyze_draft none resp s =
      Except.error "OPENAI_API_KEY environment variable is not set" ∧
    ask_followup none resp s =
      Except.error "OPENAI_API_KEY environment variable is not set" ∧
    finalize none t s =
      Except.error "OPENAI_API_KEY environment variable is not set" ∧
    botCredentialCheck { slack_app_token := app, slack_bot_token := bot,
                         openai_api_key := none } =
      botCredentialCheck { slack_app_token := app, slack_bot_token := bot,
                           openai_api_key := some "sk-live" } :=
  ⟨rfl, rfl, rfl, rfl, rfl⟩

/-- C7: for every input state and every generation outcome, the `next_step`
written by any registered node is either a registered node name or the
terminal sentinel; no node ever writes any other value. -/
theorem C7_next_step_valid (name : String) (o : NodeOracle) (s : StandupState) :
    onOk (fun s1 => validNext s1.next_step = true) (runNode name o s) := by
  unfold runNode
  split_ifs with h1 h2 h3 h4 h5 h6
  · simp only [onOk, initialize_state]; decide
  · simp only [onOk, fetch_activities]; decide
  · have h := generate_draft_post o.env o.resp s
    cases hg : generate_draft o.env o.resp s with
    | error e => simp [onOk]
    | ok s1 =>
      rw [hg] at h
      simp only [onOk] at h ⊢
      rw [h.1]; decide
  · have h := analyze_draft_post o.env o.resp s
    cases hg : analyze_draft o.env o.resp s with
    | error e => simp [onOk]
    | ok s1 =>
      rw [hg] at h
      simp only [onOk] at h ⊢
      rcases h.1 with h' | h' <;> rw [h'] <;> decide
  · have h := ask_followup_post o.env o.resp s
    cases hg : ask_followup o.env o.resp s with
    | error e => simp [onOk]
    | ok s1 =>
      rw [hg] at h
      simp only [onOk] at h ⊢
      rw [h.1]; decide
  · have h := finalize_post o.env o.respText s
    cases hg : finalize o.env o.respText s with
    | error e => simp [onOk]
    | ok s1 =>
      rw [hg] at h
      simp only [onOk] at h ⊢
      rw [h.1]; decide
  · simp [onOk]

/-- C8: for every initial state, every step index and every sequence of
oracle outcomes (covering every resolution of the conditional edge,
including the `ask_followup` / `analyze_draft` loop), the executor performs
at most `budget` node invocations; a `budgetExceeded` outcome
(`GraphBudgetExceeded`) occurs exactly by exhausting the whole budget, and a
finished run stopped at the terminal sentinel.  The final conjunct shows the
budget actually triggers on the clarification loop rather than looping
forever. -/
theorem C8_budget_termination (oracle : Nat → NodeOracle) (i budget : Nat)
    (s : StandupState) :
    budgetInv budget (execGraph oracle i budget s) ∧
    (execGraph loopOracle 0 4 loopStart).1.isBudgetExceeded = true := by
  refine ⟨?_, rfl⟩
  induction budget generalizing i s with
  | zero => simp [execGraph, budgetInv]
  | succ b ih =>
    by_cases hEnd : s.next_step = END
    · simp [execGraph, budgetInv, hEnd]
    · cases hg : runNode s.next_step (oracle i) s with
      | error e =>
        unfold budgetInv
        simp only [execGraph]
        rw [if_neg hEnd, hg]
        dsimp only
        exact ⟨by omega, trivial⟩
      | ok s1 =>
        have h2 := ih (i + 1) s1
        unfold budgetInv at h2 ⊢
        simp only [execGraph]
        rw [if_neg hEnd, hg]
        dsimp only
        refine ⟨by omega, ?_⟩
        split
        · rename_i s2 heq
          rw [heq] at h2
          dsimp only at h2
          omega
        · rename_i s2 heq
          rw [heq] at h2
          dsimp only at h2
          exact h2.2
        · trivial

/-- C9: the messages sequence is append-only — for every input state, every
generation outcome and every registered node, the input `messages` is a
prefix of the output `messages` (so the original order is preserved). -/
theorem C9_messages_append_only (name : String) (o : NodeOracle)
    (s : StandupState) :
    onOk (fun s1 => s.messages <+: s1.messages) (runNode name o s) := by
  unfold runNode
  split_ifs with h1 h2 h3 h4 h5 h6
  · simp [onOk, initialize_state]
  · simp [onOk, fetch_activities]
  · have h := generate_draft_post o.env o.resp s
    cases hg : generate_draft o.env o.resp s with
    | error e => simp [onOk]
    | ok s1 =>
      rw [hg] at h
      simp only [onOk] at h ⊢
      rw [h.2]
  · have h := analyze_draft_post o.env o.resp s
    cases hg : analyze_draft o.env o.resp s with
    | error e => simp [onOk]
    | ok s1 =>
      rw [hg] at h
      simp only [onOk] at h ⊢
      exact h.2
  · have h := ask_followup_post o.env o.resp s
    cases hg : ask_followup o.env o.resp s with
    | error e => simp [onOk]
    | ok s1 =>
      rw [hg] at h
      simp only [onOk] at h ⊢
      rw [h.2]
  · have h := finalize_post o.env o.respText s
    cases hg : finalize o.env o.respText s with
    | error e => simp [onOk]
    | ok s1 =>
      rw [hg] at h
      simp only [onOk] at h ⊢
      rw [h.2]
      exact List.prefix_append _ _
  · simp [onOk]

/-- C10: `fetch_activities` is idempotent and normalizing — for every input
state it replaces `activities` with a dictionary whose keys are exactly
`accomplishments`, `plans`, `blockers`, each taken from the input with the
empty list as default, it leaves `messages`, `user_info` and `current_draft`
unchanged, and applying it twice equals applying it once. -/
theorem C10_fetch_activities_normalizing (s : StandupState) :
    ((fetch_activities s).activities).map Prod.fst =
      ["accomplishments", "plans", "blockers"] ∧
    (fetch_activities s).messages = s.messages ∧
    (fetch_activities s).user_info = s.user_info ∧
    (fetch_activities s).current_draft = s.current_draft ∧
    dget (fetch_activities s).activities "accomplishments" =
      some (dgetD s.activities "accomplishments" (PyVal.plist [])) ∧
    dget (fetch_activities s).activities "plans" =
      some (dgetD s.activities "plans" (PyVal.plist [])) ∧
    dget (fetch_activities s).activities "blockers" =
      some (dgetD s.activities "blockers" (PyVal.plist [])) ∧
    fetch_activities (fetch_activities s) = fetch_activities s := by
  refine ⟨rfl, rfl, rfl, rfl, ?_, ?_, ?_, ?_⟩ <;>
    simp [fetch_activities, dget, dgetD]
